import Mathlib

/-!
Shallow embedding of the selection-toolbar service (`SelectionService`):
the event filter, the position/orientation resolver, the overlay bounds
calculator, the ctrl-key double-tap gesture detector and the
service lifecycle, together with theorems settling the spec claims.

Strings are modelled as `List Char`; JavaScript `Math.round` is modelled
as `⌊q + 1/2⌋` (round half toward +∞, matching JS on all finite inputs);
device-independent points produced by the external `screenToDipPoint`
conversion (which the code rounds to integers) are modelled as integer
points handed to the resolver.
-/

namespace FastCopy

/-- Strings as character lists, so that JS `String.includes` becomes the
decidable `List.isInfixOf`. -/
abbrev Str := List Char

/-- Model of JS `toLowerCase`. -/
def jsToLower (s : Str) : Str := s.map Char.toLower

/-- Model of JS `hay.includes(needle)`. -/
def jsIncludes (hay needle : Str) : Bool := decide (needle <:+: hay)

/-- Model of JS `String.trim`: strip whitespace from both ends. -/
def jsTrim (s : Str) : Str :=
  ((s.dropWhile Char.isWhitespace).reverse.dropWhile Char.isWhitespace).reverse

/-- The filter configuration as stored by `updateConfig`: `blacklist` and
`filterList` entries are already lowercased there (lines 49-55). -/
structure FilterConfig where
  blacklist : List Str
  filterMode : String
  filterList : List Str
  triggerMode : String

/-- Embedding of `SelectionService.shouldProcessSelection` (lines 174-196):
the event's `programName` (empty when absent, mirroring `|| ''`) is
lowercased; in `selected` trigger mode a non-empty blacklisted name is
rejected, then whitelist/blacklist substring filtering applies; every
other trigger mode accepts. -/
def shouldProcessSelection (cfg : FilterConfig) (programName : Str) : Bool :=
  let pn := jsToLower programName
  if cfg.triggerMode = "selected" then
    if pn ≠ [] ∧ pn ∈ cfg.blacklist then
      false
    else if cfg.filterMode = "whitelist" ∧ cfg.filterList ≠ [] then
      cfg.filterList.any (fun name => jsIncludes pn name)
    else if cfg.filterMode = "blacklist" ∧ cfg.filterList ≠ [] then
      !(cfg.filterList.any (fun name => jsIncludes pn name))
    else
      true
  else
    true

/-- An integer point: the device-independent coordinates the resolver works
on after `toDip` (`screenToDipPoint` followed by `Math.round`). -/
structure Pt where
  x : Int
  y : Int
deriving DecidableEq

/-- A rational point: anchor coordinates after padding offsets, which divide
by 3 and multiply by the zoom factor. -/
structure RPt where
  x : ℚ
  y : ℚ
deriving DecidableEq

/-- Overlay orientation tags, as in the `getToolbarBounds` switch. -/
inductive Orientation
  | topLeft | topRight | topMiddle
  | bottomLeft | bottomRight | bottomMiddle
  | middleLeft | middleRight | center
deriving DecidableEq

/-- The `posLevel` values of the selection hook; `unknown` covers the
`default` branch of the resolver's switch. -/
inductive PosLevel
  | nonePos | mouseSingle | mouseDual | selFull | selDetailed | unknown
deriving DecidableEq

/-- Geometric payload of a selection event: DIP-converted points, `none`
when the raw field is missing (`toDip(null)` yields the origin). -/
structure SelData where
  posLevel : PosLevel
  mousePosStart : Option Pt
  mousePosEnd : Option Pt
  startTop : Option Pt
  startBottom : Option Pt
  endTop : Option Pt
  endBottom : Option Pt
deriving DecidableEq

/-- `toDip` on an optional point: a missing point becomes the origin,
exactly as `toDip(null)` returns `{x: 0, y: 0}` (lines 206-212). -/
def toDip : Option Pt → Pt
  | Option.none => ⟨0, 0⟩
  | some p => p

/-- `POSITION_PADDING` (line 12). -/
def POSITION_PADDING : ℚ := 12

/-- Embedding of `SelectionService.deriveReferencePoint` (lines 198-314).
`cursor` stands for the DIP-converted `screen.getCursorScreenPoint()`. -/
def deriveReferencePoint (zoomFactor : ℚ) (cursor : Pt) (d : SelData) :
    Option RPt × Orientation :=
  let rangePadding : ℚ := POSITION_PADDING * zoomFactor
  match d.posLevel with
  | .nonePos =>
      (some ⟨(cursor.x : ℚ), (cursor.y : ℚ) + rangePadding⟩, .bottomMiddle)
  | .mouseSingle =>
      let dip := toDip d.mousePosEnd
      (some ⟨(dip.x : ℚ), (dip.y : ℚ) + rangePadding⟩, .bottomMiddle)
  | .mouseDual =>
      let s := toDip d.mousePosStart
      let e := toDip d.mousePosEnd
      let yDistance := e.y - s.y
      let xDistance := e.x - s.x
      if 14 < |yDistance| then
        if 0 < yDistance then
          (some ⟨(e.x : ℚ), (e.y : ℚ) + rangePadding⟩, .bottomLeft)
        else
          (some ⟨(e.x : ℚ), (e.y : ℚ) - rangePadding⟩, .topRight)
      else if 0 < xDistance then
        (some ⟨(e.x : ℚ), (e.y : ℚ) + rangePadding⟩, .bottomLeft)
      else
        (some ⟨(e.x : ℚ), (e.y : ℚ) + rangePadding⟩, .bottomRight)
  | .selFull | .selDetailed =>
      let mouseStart := toDip d.mousePosStart
      let mouseEnd := toDip d.mousePosEnd
      if mouseStart.x = 0 ∧ mouseStart.y = 0 ∧ mouseEnd.x = 0 ∧ mouseEnd.y = 0 then
        let endBottom := toDip d.endBottom
        (some ⟨(endBottom.x : ℚ), (endBottom.y : ℚ) + rangePadding / 3⟩, .bottomLeft)
      else
        let startTop := toDip d.startTop
        let startBottom := toDip d.startBottom
        let endTop := toDip d.endTop
        let endBottom := toDip d.endBottom
        let isDoubleClick := mouseStart.x = mouseEnd.x ∧ mouseStart.y = mouseEnd.y
        let isSameLine := startTop.y = endTop.y ∧ startBottom.y = endBottom.y
        if isDoubleClick ∧ isSameLine then
          (some ⟨(mouseEnd.x : ℚ), (endBottom.y : ℚ) + rangePadding / 3⟩, .bottomMiddle)
        else if isSameLine then
          if 0 ≤ mouseEnd.x - mouseStart.x then
            (some ⟨(endBottom.x : ℚ), (endBottom.y : ℚ) + rangePadding / 3⟩, .bottomLeft)
          else
            (some ⟨(startBottom.x : ℚ), (startBottom.y : ℚ) + rangePadding / 3⟩, .bottomRight)
        else
          if 0 ≤ mouseEnd.y - mouseStart.y then
            (some ⟨(endBottom.x : ℚ), (endBottom.y : ℚ) + rangePadding / 3⟩, .bottomLeft)
          else
            (some ⟨(startTop.x : ℚ), (startTop.y : ℚ) - rangePadding / 3⟩, .topRight)
  | .unknown =>
      (some ⟨(cursor.x : ℚ), (cursor.y : ℚ) + rangePadding⟩, .bottomMiddle)

/-- JS `Math.round`: round half toward positive infinity,
`⌊q + 1/2⌋` (via the executable `Rat.floor`). -/
def jsRound (q : ℚ) : Int := Rat.floor (q + 1 / 2)

/-- The `clamp` helper of `getToolbarBounds` (line 364):
`Math.max(min, Math.min(value, max))`. -/
def qclamp (value lo hi : ℚ) : ℚ := max lo (min value hi)

/-- Toolbar size in logical pixels (`this.toolbarSize`, integer after
`Math.ceil` in `setToolbarSize`). -/
structure Size where
  width : Int
  height : Int
deriving DecidableEq

/-- A display work area rectangle (Electron reports integer values). -/
structure WorkArea where
  x : Int
  y : Int
  width : Int
  height : Int
deriving DecidableEq

/-- The overlay rectangle returned by `getToolbarBounds`. -/
structure Bounds where
  x : Int
  y : Int
  width : Int
  height : Int
deriving DecidableEq

/-- The unclamped top-left corner of the overlay for a given orientation:
the `switch (orientation)` of `getToolbarBounds` (lines 324-362). -/
def orientationOffset (orientation : Orientation) (point : RPt)
    (width height : Int) : ℚ × ℚ :=
  match orientation with
  | .topLeft => (point.x - width, point.y - height)
  | .topRight => (point.x, point.y - height)
  | .topMiddle => (point.x - width / 2, point.y - height)
  | .bottomLeft => (point.x - width, point.y)
  | .bottomRight => (point.x, point.y)
  | .bottomMiddle => (point.x - width / 2, point.y)
  | .middleLeft => (point.x - width, point.y - height / 2)
  | .middleRight => (point.x, point.y - height / 2)
  | .center => (point.x - width / 2, point.y - height / 2)

/-- Embedding of `SelectionService.getToolbarBounds` (lines 316-369):
scale the toolbar size by the zoom factor, offset the anchor according to
the orientation, then clamp into the work area and round. -/
def getToolbarBounds (toolbarSize : Size) (zoomFactor : ℚ) (point : RPt)
    (orientation : Orientation) (workArea : WorkArea) : Bounds :=
  let width : Int := jsRound ((toolbarSize.width : ℚ) * zoomFactor)
  let height : Int := jsRound ((toolbarSize.height : ℚ) * zoomFactor)
  let raw : ℚ × ℚ := orientationOffset orientation point width height
  let x : Int := jsRound (qclamp raw.1 (workArea.x : ℚ)
    ((workArea.x : ℚ) + (workArea.width : ℚ) - (width : ℚ)))
  let y : Int := jsRound (qclamp raw.2 (workArea.y : ℚ)
    ((workArea.y : ℚ) + (workArea.height : ℚ) - (height : ℚ)))
  ⟨x, y, width, height⟩

/-! ### Gesture trigger detector (ctrlKey mode) -/

/-- A global key event as seen by the ctrl-key listeners: a key-down
carries the virtual-key code and the `Date.now()` timestamp, a key-up
carries the virtual-key code. -/
inductive KeyEvent
  | down (vk : Int) (now : Int)
  | up (vk : Int)
deriving DecidableEq

/-- Whether an event is a key-down. -/
def KeyEvent.isDown : KeyEvent → Bool
  | .down _ _ => true
  | .up _ => false

/-- Embedding of `handleCtrlKeyDown` (lines 521-546) on the
`lastCtrlKeyDownAt` sentinel state (`0` idle, `-1` suppressed, `t > 0`
armed at time `t`): returns the new state and whether the trigger fired. -/
def handleCtrlKeyDown (state : Int) (vk now : Int) : Int × Bool :=
  if vk ≠ 162 ∧ vk ≠ 163 then
    (if 0 < state then -1 else state, false)
  else if state = 0 then
    (now, false)
  else if state = -1 then
    (-1, false)
  else if 350 < now - state then
    (-1, true)
  else
    (state, false)

/-- Embedding of `handleCtrlKeyUp` (lines 548-553): a tracked-modifier
key-up resets the state to idle. -/
def handleCtrlKeyUp (state : Int) (vk : Int) : Int :=
  if vk = 162 ∨ vk = 163 then 0 else state

/-- One gesture-detector step. -/
def ctrlStep (state : Int) : KeyEvent → Int × Bool
  | .down vk now => handleCtrlKeyDown state vk now
  | .up vk => (handleCtrlKeyUp state vk, false)

/-- Run the gesture detector over a list of key events, counting how many
times the trigger fired. -/
def runCtrl (state : Int) : List KeyEvent → Int × Nat
  | [] => (state, 0)
  | e :: rest =>
    let step := ctrlStep state e
    let tail := runCtrl step.1 rest
    (tail.1, (if step.2 then 1 else 0) + tail.2)

/-! ### Global dismissal key handler -/

/-- The virtual-key codes `handleGlobalKeyDown` treats as tracked
modifiers (Shift, Ctrl, Alt, left and right). -/
def trackedModifierVKCodes : List Int := [160, 161, 162, 163, 164, 165]

/-- Embedding of `handleGlobalKeyDown` (lines 495-501): `true` means the
overlay is hidden. `none` models a missing event / `vkCode` field. -/
def handleGlobalKeyDown (vk : Option Int) : Bool :=
  if vk = some 160 ∨ vk = some 161 then false
  else if vk = some 162 ∨ vk = some 163 then false
  else if vk = some 164 ∨ vk = some 165 then false
  else true

/-! ### Stored zoom factor (`updateConfig`) -/

/-- The `zoomFactor` field of a raw configuration object. `nonNumeric`
stands for a truthy value whose `Number(...)` conversion is `NaN` (for
example a non-numeric string or an object); numeric values (and numeric
strings) are `num q`. -/
inductive ZoomField
  | absent
  | nonNumeric
  | num (q : ℚ)
deriving DecidableEq

/-- Embedding of `this.zoomFactor = Number(config.zoomFactor || 1) || 1`
(line 57): an absent or falsy (`0`) field falls back to `1`; a truthy
non-numeric value converts to `NaN`, which is falsy, falling back to `1`;
any other number passes through unchanged. -/
def storedZoomFactor : ZoomField → ℚ
  | .absent => 1
  | .nonNumeric => 1
  | .num q => if q = 0 then 1 else q

/-! ### Text-selection handler -/

/-- The `text` field of a raw selection event: absent, present but not a
string, or a string. -/
inductive TextField
  | absent
  | notString
  | str (s : Str)
deriving DecidableEq

/-- A raw selection event as consumed by `handleTextSelection`. -/
structure SelEvent where
  text : TextField
  programName : Str
  geo : SelData

/-- The overlay command a selection event produces. -/
inductive Command
  | ignored
  | hide
  | show (point : RPt) (orientation : Orientation) (text : Str)
deriving DecidableEq

/-- Embedding of `handleTextSelection` (lines 148-172): returns the
overlay command together with the new `lastSelectionText`. Events without
a string `text` are ignored; blank or filtered-out selections hide the
toolbar; otherwise the resolved anchor is shown and the trimmed text is
stored. -/
def handleTextSelection (cfg : FilterConfig) (zoomFactor : ℚ) (cursor : Pt)
    (lastSelectionText : Str) (ev : SelEvent) : Command × Str :=
  match ev.text with
  | .absent => (.ignored, lastSelectionText)
  | .notString => (.ignored, lastSelectionText)
  | .str s =>
    let trimmed := jsTrim s
    if trimmed.isEmpty then
      (.hide, lastSelectionText)
    else if !shouldProcessSelection cfg ev.programName then
      (.hide, lastSelectionText)
    else
      match deriveReferencePoint zoomFactor cursor ev.geo with
      | (Option.none, _) => (.hide, lastSelectionText)
      | (some point, orientation) => (.show point orientation trimmed, trimmed)

/-! ### Service lifecycle -/

/-- Observable service state: which listeners are attached, whether the
native hook object exists, whether the service started and whether the
overlay is visible. `available` models whether the `selection-hook`
module loaded. -/
structure SvcState where
  available : Bool
  hookPresent : Bool
  started : Bool
  selectionListenerAttached : Bool
  hideListenersAttached : Bool
  ctrlListenersAttached : Bool
  overlayVisible : Bool
  triggerMode : String
deriving DecidableEq

/-- The state right after construction (lines 23-42). -/
def initState (avail : Bool) : SvcState :=
  { available := avail
    hookPresent := false
    started := false
    selectionListenerAttached := false
    hideListenersAttached := false
    ctrlListenersAttached := false
    overlayVisible := false
    triggerMode := "selected" }

/-- Embedding of `start()` (lines 80-110): bail out when unavailable or
already started; otherwise create the hook, attach the selection and hide
listeners, attach the ctrl-key listeners in `ctrlkey` mode, and mark
started only if the native `selectionHook.start()` call (modelled by
`hookStartOk`) succeeded — on failure the listeners stay attached. -/
def svcStart (hookStartOk : Bool) (s : SvcState) : SvcState :=
  if !s.available || s.started then s
  else
    let s1 := { s with hookPresent := true
                       selectionListenerAttached := true
                       hideListenersAttached := true }
    let s2 := if s1.triggerMode = "ctrlkey"
      then { s1 with ctrlListenersAttached := true } else s1
    if hookStartOk then { s2 with started := true } else s2

/-- Embedding of `stop()` (lines 112-129): a no-op unless the hook exists
and the service is started; otherwise detach the hide and ctrl-key
listeners, hide the overlay and clear `started`. The `text-selection`
listener itself is not detached by `stop()`. -/
def svcStop (s : SvcState) : SvcState :=
  if !s.hookPresent || !s.started then s
  else
    { s with hideListenersAttached := false
             ctrlListenersAttached := false
             overlayVisible := false
             started := false }

/-- Embedding of `quit()` (lines 131-142): stop, release the hook and
clear `started`. -/
def svcQuit (s : SvcState) : SvcState :=
  let s1 := svcStop s
  { s1 with hookPresent := false, started := false }

/-- `updateConfig` as far as the lifecycle is concerned: it replaces the
trigger mode. -/
def svcSetTriggerMode (mode : String) (s : SvcState) : SvcState :=
  { s with triggerMode := mode }

/-- A selection event that results in a show command can only make the
overlay visible while the selection listener is attached. -/
def svcShowEvent (s : SvcState) : SvcState :=
  if s.selectionListenerAttached then { s with overlayVisible := true } else s

/-- Any dismissal event hides the overlay. -/
def svcHideEvent (s : SvcState) : SvcState :=
  { s with overlayVisible := false }

/-- States reachable from a freshly constructed service by lifecycle
operations and events. -/
inductive Reachable : SvcState → Prop
  | init (avail : Bool) : Reachable (initState avail)
  | start (ok : Bool) {s : SvcState} : Reachable s → Reachable (svcStart ok s)
  | stop {s : SvcState} : Reachable s → Reachable (svcStop s)
  | quit {s : SvcState} : Reachable s → Reachable (svcQuit s)
  | config (mode : String) {s : SvcState} :
      Reachable s → Reachable (svcSetTriggerMode mode s)
  | showEvt {s : SvcState} : Reachable s → Reachable (svcShowEvent s)
  | hideEvt {s : SvcState} : Reachable s → Reachable (svcHideEvent s)

/-! ### Concrete example data -/

/-- The geometry of the spec's end-to-end example: `SEL_FULL`,
`mouseStart = mouseEnd = (10,10)`, `startTop (10,0)`, `startBottom
(10,20)`, `endTop (60,0)`, `endBottom (60,20)`. -/
def specSelData : SelData :=
  ⟨.selFull, some ⟨10, 10⟩, some ⟨10, 10⟩, some ⟨10, 0⟩, some ⟨10, 20⟩,
   some ⟨60, 0⟩, some ⟨60, 20⟩⟩

/-- A `MOUSE_DUAL` event: vertical drag down from `(0,0)` to `(0,50)`. -/
def dualDragSelData : SelData :=
  ⟨.mouseDual, some ⟨0, 0⟩, some ⟨0, 50⟩, Option.none, Option.none,
   Option.none, Option.none⟩

/-- A whitelist configuration whose trigger mode is not `selected`. -/
def whitelistOtherModeCfg : FilterConfig :=
  ⟨[], "whitelist", [['a']], "ctrlkey"⟩

/-- A whitelist configuration in `selected` trigger mode. -/
def whitelistSelectedCfg : FilterConfig :=
  ⟨[], "whitelist", [['n']], "selected"⟩

/-- A `selected`-mode configuration whose blacklist holds `"app"`. -/
def blacklistedCfg : FilterConfig :=
  ⟨[['a', 'p', 'p']], "whitelist", [['a']], "selected"⟩

/-! ## Theorems -/

/-- C5: with `triggerMode = selected`, a non-empty lowercased program name
that is a member of the blacklist makes `shouldProcessSelection` return
`false`, whatever `filterMode` and `filterList` are. -/
theorem c5_blacklist_rejects (cfg : FilterConfig) (programName : Str)
    (ht : cfg.triggerMode = "selected")
    (hne : jsToLower programName ≠ [])
    (hmem : jsToLower programName ∈ cfg.blacklist) :
    shouldProcessSelection cfg programName = false := by
  simp only [shouldProcessSelection]
  rw [if_pos ht, if_pos ⟨hne, hmem⟩]

/-- C5 witness: the blacklist entry `"app"` rejects program name
`"App"`. -/
theorem c5_blacklist_rejects_witness :
    shouldProcessSelection blacklistedCfg ['A', 'p', 'p'] = false :=
  c5_blacklist_rejects blacklistedCfg ['A', 'p', 'p'] rfl (by decide) (by decide)

/-- C6 counterexample: with trigger mode `ctrlkey` (not `selected`), a
whitelist configuration with a non-empty filter list accepts a program
name that matches no whitelist entry, so the claimed equivalence fails as
stated. -/
theorem c6_counterexample :
    shouldProcessSelection whitelistOtherModeCfg ['z'] = true ∧
    whitelistOtherModeCfg.filterList.any
      (fun name => jsIncludes (jsToLower ['z']) name) = false := by
  decide

/-- C6 amended: with `triggerMode = selected`, `filterMode = whitelist`, a
non-empty `filterList`, and a program name not caught by the blacklist,
`shouldProcessSelection` returns `true` iff some filter-list entry is a
substring of the lowercased program name. -/
theorem c6_whitelist_amended (cfg : FilterConfig) (programName : Str)
    (ht : cfg.triggerMode = "selected")
    (hm : cfg.filterMode = "whitelist")
    (hl : cfg.filterList ≠ [])
    (hbl : ¬(jsToLower programName ≠ [] ∧ jsToLower programName ∈ cfg.blacklist)) :
    shouldProcessSelection cfg programName =
      cfg.filterList.any (fun name => jsIncludes (jsToLower programName) name) := by
  simp only [shouldProcessSelection]
  rw [if_pos ht, if_neg hbl, if_pos ⟨hm, hl⟩]

/-- C6 amended witness: whitelist entry `"n"` accepts program name
`"Note"`. -/
theorem c6_whitelist_amended_witness :
    shouldProcessSelection whitelistSelectedCfg ['N', 'o', 't', 'e'] =
      whitelistSelectedCfg.filterList.any
        (fun name => jsIncludes (jsToLower ['N', 'o', 't', 'e']) name) :=
  c6_whitelist_amended whitelistSelectedCfg ['N', 'o', 't', 'e'] rfl rfl
    (by decide) (by decide)

/-- On the suppressed state (`-1`), any sequence of key-down events leaves
the detector suppressed and fires nothing. -/
theorem runCtrl_suppressed_of_downs (events : List KeyEvent)
    (h : ∀ e ∈ events, e.isDown = true) : runCtrl (-1) events = (-1, 0) := by
  induction events with
  | nil => rfl
  | cons e rest ih =>
    cases e with
    | down vk now =>
      have hstep : ctrlStep (-1) (.down vk now) = (-1, false) := by
        simp only [ctrlStep, handleCtrlKeyDown]
        split_ifs <;> simp_all
      have htail : runCtrl (-1) rest = (-1, 0) :=
        ih fun e he => h e (List.mem_cons_of_mem _ he)
      simp [runCtrl, hstep, htail]
    | up vk =>
      have := h (.up vk) (List.mem_cons_self _ _)
      simp [KeyEvent.isDown] at this

/-- C4: in ctrlKey trigger mode, starting idle, two tracked-modifier
key-downs more than 350ms apart with a tracked-modifier key-up in between
fire nothing (the key-up resets to idle, the second down re-arms); with no
intervening key-up they fire exactly once, leave the detector suppressed,
and no later key-down (tracked or not) fires again. -/
theorem c4_double_tap (v1 v2 v3 : Int) (t1 t2 : Int) (rest : List KeyEvent)
    (hv1 : v1 = 162 ∨ v1 = 163) (hv2 : v2 = 162 ∨ v2 = 163)
    (hv3 : v3 = 162 ∨ v3 = 163)
    (ht1 : 0 < t1) (hgap : 350 < t2 - t1)
    (hrest : ∀ e ∈ rest, e.isDown = true) :
    runCtrl 0 [.down v1 t1, .up v2, .down v3 t2] = (t2, 0) ∧
    (runCtrl 0 ([.down v1 t1, .down v3 t2] ++ rest)).2 = 1 ∧
    (runCtrl 0 ([.down v1 t1, .down v3 t2] ++ rest)).1 = -1 := by
  have hs1 : ctrlStep 0 (.down v1 t1) = (t1, false) := by
    simp only [ctrlStep, handleCtrlKeyDown]
    rcases hv1 with h | h <;> subst h <;> norm_num
  have hs2 : ctrlStep t1 (.up v2) = (0, false) := by
    simp only [ctrlStep, handleCtrlKeyUp]
    rcases hv2 with h | h <;> subst h <;> norm_num
  have hs3 : ctrlStep 0 (.down v3 t2) = (t2, false) := by
    simp only [ctrlStep, handleCtrlKeyDown]
    rcases hv3 with h | h <;> subst h <;> norm_num
  have hs4 : ctrlStep t1 (.down v3 t2) = (-1, true) := by
    simp only [ctrlStep, handleCtrlKeyDown]
    have h0 : ¬t1 = 0 := by omega
    have h1 : ¬t1 = -1 := by omega
    rcases hv3 with h | h <;> subst h <;> simp [h0, h1, hgap]
  have hsup := runCtrl_suppressed_of_downs rest hrest
  refine ⟨?_, ?_, ?_⟩ <;>
    simp [runCtrl, hs1, hs2, hs3, hs4, hsup]

/-- C4 witness: concrete traces with `vk = 162`, first down at 1000,
second at 1400 (gap 400 > 350), and one further down at 2000. -/
theorem c4_double_tap_witness :
    runCtrl 0 [.down 162 1000, .up 162, .down 162 1400] = (1400, 0) ∧
    (runCtrl 0 ([.down 162 1000, .down 162 1400] ++ [.down 162 2000])).2 = 1 ∧
    (runCtrl 0 ([.down 162 1000, .down 162 1400] ++ [.down 162 2000])).1 = -1 :=
  c4_double_tap 162 162 162 1000 1400 [.down 162 2000]
    (Or.inl rfl) (Or.inl rfl) (Or.inl rfl) (by decide) (by decide)
    (by intro e he; simp at he; subst he; rfl)

/-- C7: a global key-down whose virtual-key code is none of the tracked
modifier codes (160-165) hides the overlay. -/
theorem c7_nonmodifier_keydown_hides (vk : Option Int)
    (h : ∀ c ∈ trackedModifierVKCodes, vk ≠ some c) :
    handleGlobalKeyDown vk = true := by
  simp only [trackedModifierVKCodes, List.mem_cons, List.not_mem_nil] at h
  have h160 := h 160 (by tauto)
  have h161 := h 161 (by tauto)
  have h162 := h 162 (by tauto)
  have h163 := h 163 (by tauto)
  have h164 := h 164 (by tauto)
  have h165 := h 165 (by tauto)
  simp [handleGlobalKeyDown, h160, h161, h162, h163, h164, h165]

/-- C7 witness: virtual-key code 65 (the letter A) hides the overlay. -/
theorem c7_nonmodifier_keydown_hides_witness :
    handleGlobalKeyDown (some 65) = true :=
  c7_nonmodifier_keydown_hides (some 65) (by decide)

/-- C8 counterexample: `updateConfig` with `zoomFactor = -2` stores `-2`,
which is not positive, refuting the claim that the stored zoom factor is
always positive. -/
theorem c8_counterexample :
    storedZoomFactor (.num (-2)) = -2 ∧ ¬(0 < storedZoomFactor (.num (-2))) := by
  constructor
  · rfl
  · norm_num [storedZoomFactor]

/-- C8 amended: after `updateConfig` the stored zoom factor is never zero
and defaults to 1 when the field is absent, zero or non-numeric; any other
numeric value — including a negative one — is stored unchanged. -/
theorem c8_zoom_amended (f : ZoomField) :
    storedZoomFactor f ≠ 0 ∧
    (f = .absent → storedZoomFactor f = 1) ∧
    (f = .nonNumeric → storedZoomFactor f = 1) ∧
    (f = .num 0 → storedZoomFactor f = 1) ∧
    (∀ q : ℚ, f = .num q → q ≠ 0 → storedZoomFactor f = q) := by
  refine ⟨?_, ?_, ?_, ?_, ?_⟩
  · rcases f with _ | _ | q
    · simp [storedZoomFactor]
    · simp [storedZoomFactor]
    · simp only [storedZoomFactor]
      split_ifs with h
      · norm_num
      · exact h
  · intro h
    subst h
    rfl
  · intro h
    subst h
    rfl
  · intro h
    subst h
    simp [storedZoomFactor]
  · intro q h hq
    subst h
    simp [storedZoomFactor, hq]

/-- C8 amended witness: a zoom factor field holding 0 is stored as 1. -/
theorem c8_zoom_amended_witness : storedZoomFactor (.num 0) = 1 :=
  (c8_zoom_amended (.num 0)).2.2.2.1 rfl

/-- `jsRound` agrees with `⌊q + 1/2⌋` over the `FloorRing` structure. -/
theorem jsRound_eq_floor (q : ℚ) : jsRound q = ⌊q + 1 / 2⌋ := by
  rw [jsRound, Rat.floor_def, Rat.floor_def']

/-- `jsRound` is at least any integer lower bound of its argument. -/
theorem le_jsRound_of_le {n : Int} {q : ℚ} (h : (n : ℚ) ≤ q) : n ≤ jsRound q := by
  rw [jsRound_eq_floor, Int.le_floor]
  linarith

/-- `jsRound` respects any integer upper bound of its argument. -/
theorem jsRound_le_of_le {n : Int} {q : ℚ} (h : q ≤ (n : ℚ)) : jsRound q ≤ n := by
  rw [jsRound_eq_floor]
  have h2 : q + 1 / 2 ≤ (n : ℚ) + 1 / 2 := by linarith
  have h3 := Int.floor_le_floor h2
  rwa [Int.floor_int_add, show ⌊(1 / 2 : ℚ)⌋ = 0 by norm_num, add_zero] at h3

/-- `jsRound` evaluates to `n` when `q + 1/2` lies in `[n, n + 1)`. -/
theorem jsRound_eq_of {q : ℚ} {n : Int} (h1 : (n : ℚ) ≤ q + 1 / 2)
    (h2 : q + 1 / 2 < n + 1) : jsRound q = n := by
  rw [jsRound_eq_floor]
  exact Int.floor_eq_iff.mpr ⟨h1, h2⟩

/-- Clamping into `[lo, lo + total - size]` and rounding keeps one axis of
the overlay inside `[lo, lo + total]`, as long as `size ≤ total`. -/
theorem jsRound_qclamp_axis (v : ℚ) (lo size total : Int) (h : size ≤ total) :
    lo ≤ jsRound (qclamp v (lo : ℚ) ((lo : ℚ) + (total : ℚ) - (size : ℚ))) ∧
    jsRound (qclamp v (lo : ℚ) ((lo : ℚ) + (total : ℚ) - (size : ℚ))) + size ≤
      lo + total := by
  have hlohi : (lo : ℚ) ≤ (lo : ℚ) + (total : ℚ) - (size : ℚ) := by
    have : (size : ℚ) ≤ (total : ℚ) := by exact_mod_cast h
    linarith
  constructor
  · exact le_jsRound_of_le (le_max_left _ _)
  · have hup : qclamp v (lo : ℚ) ((lo : ℚ) + (total : ℚ) - (size : ℚ)) ≤
        ((lo + total - size : Int) : ℚ) := by
      push_cast
      exact max_le hlohi (min_le_right _ _)
    have := jsRound_le_of_le hup
    omega

/-- C1 counterexample: with toolbar size 200×48, zoom 1, anchor `(0,0)`,
orientation `bottomRight` and work area `{x:0, y:0, width:100,
height:100}`, the returned rectangle has `x + width = 200 > 100`, so the
bounds do not fit inside the work area. -/
theorem c1_counterexample :
    ((getToolbarBounds ⟨200, 48⟩ 1 ⟨0, 0⟩ .bottomRight ⟨0, 0, 100, 100⟩).x +
      (getToolbarBounds ⟨200, 48⟩ 1 ⟨0, 0⟩ .bottomRight ⟨0, 0, 100, 100⟩).width) = 200 ∧
    ¬((getToolbarBounds ⟨200, 48⟩ 1 ⟨0, 0⟩ .bottomRight ⟨0, 0, 100, 100⟩).x +
        (getToolbarBounds ⟨200, 48⟩ 1 ⟨0, 0⟩ .bottomRight ⟨0, 0, 100, 100⟩).width ≤
      0 + 100) := by
  have hb : getToolbarBounds ⟨200, 48⟩ 1 ⟨0, 0⟩ .bottomRight ⟨0, 0, 100, 100⟩ =
      ⟨0, 0, 200, 48⟩ := by
    dsimp only [getToolbarBounds, orientationOffset]
    simp only [Bounds.mk.injEq]
    have hw : jsRound (((200 : Int) : ℚ) * 1) = 200 := by
      apply jsRound_eq_of <;> norm_num
    have hh : jsRound (((48 : Int) : ℚ) * 1) = 48 := by
      apply jsRound_eq_of <;> norm_num
    rw [hw, hh]
    refine ⟨?_, ?_, rfl, rfl⟩ <;>
      · apply jsRound_eq_of <;> norm_num [qclamp, min_def, max_def]
  rw [hb]
  norm_num

/-- C1 amended: whenever the effective (zoom-scaled, rounded) toolbar size
fits inside the work area, the rectangle returned by `getToolbarBounds`
lies entirely within the work area on both axes, for every anchor point
and orientation. -/
theorem c1_bounds_within_work_area (toolbarSize : Size) (zoomFactor : ℚ)
    (point : RPt) (orientation : Orientation) (workArea : WorkArea)
    (hw : (getToolbarBounds toolbarSize zoomFactor point orientation workArea).width ≤
      workArea.width)
    (hh : (getToolbarBounds toolbarSize zoomFactor point orientation workArea).height ≤
      workArea.height) :
    workArea.x ≤ (getToolbarBounds toolbarSize zoomFactor point orientation workArea).x ∧
    (getToolbarBounds toolbarSize zoomFactor point orientation workArea).x +
      (getToolbarBounds toolbarSize zoomFactor point orientation workArea).width ≤
      workArea.x + workArea.width ∧
    workArea.y ≤ (getToolbarBounds toolbarSize zoomFactor point orientation workArea).y ∧
    (getToolbarBounds toolbarSize zoomFactor point orientation workArea).y +
      (getToolbarBounds toolbarSize zoomFactor point orientation workArea).height ≤
      workArea.y + workArea.height := by
  simp only [getToolbarBounds] at hw hh ⊢
  have hx := jsRound_qclamp_axis
    (orientationOffset orientation point
      (jsRound ((toolbarSize.width : ℚ) * zoomFactor))
      (jsRound ((toolbarSize.height : ℚ) * zoomFactor))).1
    workArea.x (jsRound ((toolbarSize.width : ℚ) * zoomFactor)) workArea.width hw
  have hy := jsRound_qclamp_axis
    (orientationOffset orientation point
      (jsRound ((toolbarSize.width : ℚ) * zoomFactor))
      (jsRound ((toolbarSize.height : ℚ) * zoomFactor))).2
    workArea.y (jsRound ((toolbarSize.height : ℚ) * zoomFactor)) workArea.height hh
  exact ⟨hx.1, hx.2, hy.1, hy.2⟩

/-- C1 amended witness: the default 180×48 toolbar at zoom 1, anchored at
the origin with orientation `bottomRight`, on a 1000×800 work area. -/
theorem c1_bounds_within_work_area_witness :
    (0 : Int) ≤ (getToolbarBounds ⟨180, 48⟩ 1 ⟨0, 0⟩ .bottomRight ⟨0, 0, 1000, 800⟩).x ∧
    (getToolbarBounds ⟨180, 48⟩ 1 ⟨0, 0⟩ .bottomRight ⟨0, 0, 1000, 800⟩).x +
      (getToolbarBounds ⟨180, 48⟩ 1 ⟨0, 0⟩ .bottomRight ⟨0, 0, 1000, 800⟩).width ≤
      0 + 1000 ∧
    (0 : Int) ≤ (getToolbarBounds ⟨180, 48⟩ 1 ⟨0, 0⟩ .bottomRight ⟨0, 0, 1000, 800⟩).y ∧
    (getToolbarBounds ⟨180, 48⟩ 1 ⟨0, 0⟩ .bottomRight ⟨0, 0, 1000, 800⟩).y +
      (getToolbarBounds ⟨180, 48⟩ 1 ⟨0, 0⟩ .bottomRight ⟨0, 0, 1000, 800⟩).height ≤
      0 + 800 := by
  have hw : (getToolbarBounds ⟨180, 48⟩ 1 ⟨0, 0⟩ .bottomRight
      ⟨0, 0, 1000, 800⟩).width = 180 := by
    dsimp only [getToolbarBounds]
    apply jsRound_eq_of <;> norm_num
  have hh : (getToolbarBounds ⟨180, 48⟩ 1 ⟨0, 0⟩ .bottomRight
      ⟨0, 0, 1000, 800⟩).height = 48 := by
    dsimp only [getToolbarBounds]
    apply jsRound_eq_of <;> norm_num
  exact c1_bounds_within_work_area ⟨180, 48⟩ 1 ⟨0, 0⟩ .bottomRight ⟨0, 0, 1000, 800⟩
    (by rw [hw]; norm_num) (by rw [hh]; norm_num)

/-- C2 counterexample: on the spec's own end-to-end example (`SEL_FULL`,
`mouseStart = mouseEnd = (10,10)`, `endBottom = (60,20)`, zoom 1) the
resolver anchors at `(10, 24)`: the x-coordinate comes from `mouseEnd`
but the y-coordinate comes from `endBottom.y + effectivePadding/3`, not
from `mouseEnd.y + effectivePadding/3 = 14` as the claim states. -/
theorem c2_counterexample :
    deriveReferencePoint 1 ⟨0, 0⟩ specSelData =
      (some ⟨10, 24⟩, .bottomMiddle) ∧
    ((toDip specSelData.mousePosEnd).y : ℚ) + POSITION_PADDING * 1 / 3 ≠ 24 := by
  constructor
  · simp only [deriveReferencePoint, specSelData, toDip, POSITION_PADDING]
    norm_num
  · simp only [specSelData, toDip, POSITION_PADDING]
    norm_num

/-- C2 amended: for a `SEL_FULL`/`SEL_DETAILED` event whose converted
mouse start and end coincide (and are not the origin) and whose selection
start/end lines coincide, the resolver yields orientation `bottomMiddle`
anchored at x from `mouseEnd` and y from `endBottom` shifted down by
`effectivePadding/3`. -/
theorem c2_doubleclick_sameline (z : ℚ) (cursor : Pt) (d : SelData)
    (hpl : d.posLevel = .selFull ∨ d.posLevel = .selDetailed)
    (heq : toDip d.mousePosStart = toDip d.mousePosEnd)
    (hnz : ¬((toDip d.mousePosEnd).x = 0 ∧ (toDip d.mousePosEnd).y = 0))
    (hTop : (toDip d.startTop).y = (toDip d.endTop).y)
    (hBot : (toDip d.startBottom).y = (toDip d.endBottom).y) :
    deriveReferencePoint z cursor d =
      (some ⟨((toDip d.mousePosEnd).x : ℚ),
             ((toDip d.endBottom).y : ℚ) + POSITION_PADDING * z / 3⟩,
       .bottomMiddle) := by
  have hno : ¬((toDip d.mousePosStart).x = 0 ∧ (toDip d.mousePosStart).y = 0 ∧
      (toDip d.mousePosEnd).x = 0 ∧ (toDip d.mousePosEnd).y = 0) := by
    rw [heq]
    tauto
  have hdc : (toDip d.mousePosStart).x = (toDip d.mousePosEnd).x ∧
      (toDip d.mousePosStart).y = (toDip d.mousePosEnd).y := by
    rw [heq]
    exact ⟨rfl, rfl⟩
  rcases hpl with h | h <;>
  · simp only [deriveReferencePoint, h]
    rw [if_neg hno, if_pos ⟨hdc, hTop, hBot⟩]

/-- C2 amended witness: the spec's end-to-end example. -/
theorem c2_doubleclick_sameline_witness :
    deriveReferencePoint 1 ⟨0, 0⟩ specSelData =
      (some ⟨((toDip specSelData.mousePosEnd).x : ℚ),
             ((toDip specSelData.endBottom).y : ℚ) + POSITION_PADDING * 1 / 3⟩,
       .bottomMiddle) :=
  c2_doubleclick_sameline 1 ⟨0, 0⟩ specSelData (Or.inl rfl) rfl (by decide) rfl rfl

/-- C3: for a `MOUSE_DUAL` event, a vertical drag distance above 14 gives
`bottomLeft` at `mouseEnd` shifted down (downward drag) or `topRight` at
`mouseEnd` shifted up (upward drag); otherwise a rightward drag gives
`bottomLeft` and any other drag — ties included — gives `bottomRight`,
both anchored at `mouseEnd` shifted down by the effective padding. -/
theorem c3_mouse_dual (z : ℚ) (cursor : Pt) (d : SelData)
    (hpl : d.posLevel = .mouseDual) :
    (14 < |(toDip d.mousePosEnd).y - (toDip d.mousePosStart).y| →
      (0 < (toDip d.mousePosEnd).y - (toDip d.mousePosStart).y →
        deriveReferencePoint z cursor d =
          (some ⟨((toDip d.mousePosEnd).x : ℚ),
                 ((toDip d.mousePosEnd).y : ℚ) + POSITION_PADDING * z⟩,
           .bottomLeft)) ∧
      ((toDip d.mousePosEnd).y - (toDip d.mousePosStart).y < 0 →
        deriveReferencePoint z cursor d =
          (some ⟨((toDip d.mousePosEnd).x : ℚ),
                 ((toDip d.mousePosEnd).y : ℚ) - POSITION_PADDING * z⟩,
           .topRight))) ∧
    (|(toDip d.mousePosEnd).y - (toDip d.mousePosStart).y| ≤ 14 →
      (0 < (toDip d.mousePosEnd).x - (toDip d.mousePosStart).x →
        deriveReferencePoint z cursor d =
          (some ⟨((toDip d.mousePosEnd).x : ℚ),
                 ((toDip d.mousePosEnd).y : ℚ) + POSITION_PADDING * z⟩,
           .bottomLeft)) ∧
      ((toDip d.mousePosEnd).x - (toDip d.mousePosStart).x ≤ 0 →
        deriveReferencePoint z cursor d =
          (some ⟨((toDip d.mousePosEnd).x : ℚ),
                 ((toDip d.mousePosEnd).y : ℚ) + POSITION_PADDING * z⟩,
           .bottomRight))) := by
  simp only [deriveReferencePoint, hpl]
  refine ⟨fun habs => ⟨fun hy => ?_, fun hy => ?_⟩,
          fun habs => ⟨fun hx => ?_, fun hx => ?_⟩⟩
  · rw [if_pos habs, if_pos hy]
  · rw [if_pos habs, if_neg (by omega)]
  · rw [if_neg (not_lt.mpr habs), if_pos hx]
  · rw [if_neg (not_lt.mpr habs), if_neg (by omega)]

/-- C3 witness: a vertical drag from `(0,0)` down to `(0,50)` (distance
50 > 14) yields orientation `bottomLeft`. -/
theorem c3_mouse_dual_witness :
    deriveReferencePoint 1 ⟨0, 0⟩ dualDragSelData =
      (some ⟨((toDip dualDragSelData.mousePosEnd).x : ℚ),
             ((toDip dualDragSelData.mousePosEnd).y : ℚ) + POSITION_PADDING * 1⟩,
       .bottomLeft) :=
  ((c3_mouse_dual 1 ⟨0, 0⟩ dualDragSelData rfl).1 (by norm_num [toDip, dualDragSelData])).1
    (by norm_num [toDip, dualDragSelData])

/-- Invariant of reachable service states: a started service has its hook
object present (`started` is only ever set after `ensureHook`). -/
theorem reachable_started_imp_hook {s : SvcState} (h : Reachable s) :
    s.started = true → s.hookPresent = true := by
  induction h with
  | init avail =>
    intro hs
    simp [initState] at hs
  | @start ok s hr ih =>
    intro hs
    simp only [svcStart] at hs ⊢
    by_cases hc : (!s.available || s.started) = true
    · rw [if_pos hc] at hs ⊢
      exact ih hs
    · rw [if_neg hc] at hs ⊢
      split_ifs at hs ⊢ <;> simp_all
  | @stop s hr ih =>
    intro hs
    simp only [svcStop] at hs ⊢
    by_cases hc : (!s.hookPresent || !s.started) = true
    · rw [if_pos hc] at hs ⊢
      exact ih hs
    · rw [if_neg hc] at hs ⊢
      simp_all
  | @quit s hr ih =>
    intro hs
    simp [svcQuit] at hs
  | @config mode s hr ih =>
    intro hs
    simp only [svcSetTriggerMode] at hs ⊢
    exact ih hs
  | @showEvt s hr ih =>
    intro hs
    simp only [svcShowEvent] at hs ⊢
    split_ifs at hs ⊢ <;> simp_all
  | @hideEvt s hr ih =>
    intro hs
    simp only [svcHideEvent] at hs ⊢
    exact ih hs

/-- C9 counterexample: when `start()` attaches the listeners but the
native hook's `start()` returns `false`, the service is reachable with
listeners attached and `started = false`; `stop()` (once or twice) is
then a no-op, so the final state does NOT have its listeners detached,
refuting the claim that a double `stop()` always ends with listeners
detached. -/
theorem c9_counterexample :
    Reachable (svcStart false (initState true)) ∧
    (svcStop (svcStop (svcStart false (initState true)))).hideListenersAttached = true ∧
    (svcStart false (initState true)).started = false := by
  refine ⟨.start false (.init true), ?_, ?_⟩ <;> rfl

/-- C9 amended: from any reachable state, calling `stop()` twice produces
the same final state as calling it once (the second call changes
nothing), the resulting state is not started, and — when the service was
actually running — the single `stop()` also detaches the hide and
ctrl-key listeners and hides the overlay. -/
theorem c9_stop_idempotent (s : SvcState) (hr : Reachable s) :
    svcStop (svcStop s) = svcStop s ∧
    (svcStop s).started = false ∧
    (s.started = true →
      (svcStop s).hideListenersAttached = false ∧
      (svcStop s).ctrlListenersAttached = false ∧
      (svcStop s).overlayVisible = false) := by
  by_cases hst : s.started = true
  · have hhook := reachable_started_imp_hook hr hst
    simp [svcStop, hst, hhook]
  · have hst' : s.started = false := by
      cases h : s.started
      · rfl
      · exact absurd h hst
    simp [svcStop, hst']

/-- C9 amended witness: the freshly constructed service. -/
theorem c9_stop_idempotent_witness :
    svcStop (svcStop (initState true)) = svcStop (initState true) ∧
    (svcStop (initState true)).started = false :=
  ⟨(c9_stop_idempotent (initState true) (.init true)).1,
   (c9_stop_idempotent (initState true) (.init true)).2.1⟩

/-- C10: a selection event whose text is absent or not a string is
ignored entirely (no show, no hide, last text unchanged); one whose text
trims to empty hides the toolbar, issues no show, and leaves the stored
last-selection text unchanged. -/
theorem c10_blank_text (cfg : FilterConfig) (z : ℚ) (cursor : Pt)
    (lastText : Str) (ev : SelEvent) :
    ((ev.text = .absent ∨ ev.text = .notString) →
      handleTextSelection cfg z cursor lastText ev = (.ignored, lastText)) ∧
    (∀ s, ev.text = .str s → jsTrim s = [] →
      handleTextSelection cfg z cursor lastText ev = (.hide, lastText)) := by
  constructor
  · rintro (h | h) <;> simp [handleTextSelection, h]
  · intro s hs htrim
    simp [handleTextSelection, hs, htrim]

/-- C10 witness: a whitespace-only selection hides the toolbar and keeps
the previous stored text. -/
theorem c10_blank_text_witness :
    handleTextSelection ⟨[], "blacklist", [], "selected"⟩ 1 ⟨0, 0⟩ ['a']
      ⟨.str [' ', ' '], [], specSelData⟩ = (.hide, ['a']) :=
  (c10_blank_text ⟨[], "blacklist", [], "selected"⟩ 1 ⟨0, 0⟩ ['a']
      ⟨.str [' ', ' '], [], specSelData⟩).2 [' ', ' '] rfl (by decide)

end FastCopy
